import Mathlib

/-!
Shallow embedding of `segmed/train/train_unet.py`.

The repository consists of a single function `train_unet` that configures
Keras data generators, a checkpoint callback, a compile step and a
`fit_generator` call.  The framework calls are modelled as oracles packaged
in a `Framework` structure; a Keras `DirectoryIterator` is modelled as the
infinite stream of batches it yields (a Keras iterator never raises
StopIteration), so consuming a batch with `next` corresponds to shifting
the index at which later consumers read the stream.  Fallible framework
calls return `Except`.  The function either returns the trace of all
configurations it built together with the history (`Outcome.ok`), lets a
framework error propagate (`Outcome.error`), or diverges
(`Outcome.diverge`, for the debugging loop over an endless iterator).
-/

namespace Segmed

/-- The `dtype` entry of `data_gen_args` (`tf.float32`). -/
inductive DType
  | float32
deriving DecidableEq, Repr

/-- The `class_mode=None` argument of `flow_from_directory`. -/
inductive ClassMode
  | none
deriving DecidableEq, Repr

/-- The `color_mode` argument of `flow_from_directory`. -/
inductive ColorMode
  | rgb
  | grayscale
deriving DecidableEq, Repr

/-- The `subset` argument of `flow_from_directory`. -/
inductive Subset
  | training
  | validation
deriving DecidableEq, Repr

/-- The `mode` argument of `tf.keras.callbacks.ModelCheckpoint`. -/
inductive CkptMode
  | max
  | min
  | auto
deriving DecidableEq, Repr

/-- The loss passed to `model.compile` (`tf.keras.losses.binary_crossentropy`). -/
inductive Loss
  | binary_crossentropy
deriving DecidableEq, Repr

/-- The two metric objects imported from `segmed.metrics` as
`mts.jaccard_index` and `mts.dice_coef`, modelled as opaque tags: only their
identity matters to `train_unet`, which merely places them in the metrics
list of `model.compile`. -/
inductive Metric
  | jaccard_index
  | dice_coef
deriving DecidableEq, Repr

/-- The keyword arguments of `ImageDataGenerator(**data_gen_args)`:
`rescale=1.0/255.0`, `validation_split=val_split`, `dtype=tf.float32`. -/
structure DataGenConfig where
  rescale : ℚ
  validation_split : ℚ
  dtype : DType
deriving DecidableEq, Repr

/-- The arguments of one `datagen.flow_from_directory(...)` call, together
with the configuration of the `ImageDataGenerator` it was called on. -/
structure FlowConfig where
  datagen : DataGenConfig
  directory : String
  class_mode : ClassMode
  color_mode : ColorMode
  batch_size : ℕ
  seed : ℕ
  subset : Subset
deriving DecidableEq, Repr

/-- The arguments of `tf.keras.callbacks.ModelCheckpoint(model_file,
monitor=monitor, verbose=1, save_best_only=True, mode="max")`. -/
structure CheckpointConfig where
  filepath : String
  monitor : String
  verbose : ℕ
  save_best_only : Bool
  mode : CkptMode
deriving DecidableEq, Repr

/-- The arguments of `model.compile(loss=..., optimizer=..., metrics=...)`.
`Opt` is the (opaque) type of the optimizer object forwarded by the caller. -/
structure CompileConfig (Opt : Type) where
  loss : Loss
  optimizer : Opt
  metrics : List Metric

/-- The arguments of `model.fit_generator(train_generator,
steps_per_epoch=..., epochs=..., callbacks=[checkpoint], verbose=1,
validation_data=val_generator, validation_steps=steps_per_epoch)`.
The two streams are the generator objects handed to the framework:
`generator` is `train_generator` as it stands when `fit_generator` first
pulls from it, `validation_data` is `val_generator`. -/
structure FitConfig (Batch : Type) where
  generator : ℕ → Batch × Batch
  steps_per_epoch : ℕ
  epochs : ℕ
  callbacks : List CheckpointConfig
  verbose : ℕ
  validation_data : ℕ → Batch × Batch
  validation_steps : ℕ

/-- The deep-learning framework, as the oracles `train_unet` calls into.
`flow` is `flow_from_directory` (returning the infinite batch stream of the
resulting `DirectoryIterator`), `shapeOf` is `batch[0].shape`, `compile`
is `model.compile` (returning the compiled model), `fit` is
`model.fit_generator` (returning the `History`).  Each fallible call
returns `Except Err`. -/
structure Framework (Batch Model Err History Shape Opt : Type) where
  flow : FlowConfig → Except Err (ℕ → Batch)
  shapeOf : Batch → Shape
  compile : Model → CompileConfig Opt → Except Err Model
  fit : Model → FitConfig Batch → Except Err History

/-- The `segmodel` argument: `segmodel.input_size = shape` followed by
`segmodel.collect()` is modelled as one call `collect shape`, returning the
built Keras model or an error. -/
structure SegModel (Shape Err Model : Type) where
  collect : Shape → Except Err Model

/-- Everything `train_unet` built on a run that completed: the four
`flow_from_directory` configurations, the four batch streams the framework
returned for them, the checkpoint, compile and fit arguments, the built
and compiled models, and the returned history. -/
structure Trace (Batch Model History Opt : Type) where
  data_gen_args : DataGenConfig
  image_generator_train : FlowConfig
  mask_generator_train : FlowConfig
  image_generator_val : FlowConfig
  mask_generator_val : FlowConfig
  image_train_stream : ℕ → Batch
  mask_train_stream : ℕ → Batch
  image_val_stream : ℕ → Batch
  mask_val_stream : ℕ → Batch
  checkpoint : CheckpointConfig
  compileCfg : CompileConfig Opt
  fitCfg : FitConfig Batch
  built_model : Model
  compiled_model : Model
  history : History

/-- Possible outcomes of a Python function call: normal return, an
uncaught exception propagating to the caller, or non-termination. -/
inductive Outcome (Err A : Type)
  | ok : A → Outcome Err A
  | error : Err → Outcome Err A
  | diverge : Outcome Err A
deriving DecidableEq

/-- The`data_gen_args` dictionary of line 53:
`rescale` 1/255, `validation_split` equal to `val_split`, float32 dtype. -/
def data_gen_args (val_split : ℚ) : DataGenConfig :=
  { rescale := 1 / 255, validation_split := val_split, dtype := DType.float32 }

/-- Configuration of `image_datagen.flow_from_directory(img_path,
class_mode=None, color_mode="rgb", batch_size=batch_size, seed=seed,
subset="training")` (line 63). -/
def image_generator_train_cfg (img_path : String) (batch_size seed : ℕ)
    (val_split : ℚ) : FlowConfig :=
  { datagen := data_gen_args val_split, directory := img_path,
    class_mode := ClassMode.none, color_mode := ColorMode.rgb,
    batch_size := batch_size, seed := seed, subset := Subset.training }

/-- Configuration of `mask_datagen.flow_from_directory(mask_path,
class_mode=None, color_mode="grayscale", batch_size=batch_size, seed=seed,
subset="training")` (line 71). -/
def mask_generator_train_cfg (mask_path : String) (batch_size seed : ℕ)
    (val_split : ℚ) : FlowConfig :=
  { datagen := data_gen_args val_split, directory := mask_path,
    class_mode := ClassMode.none, color_mode := ColorMode.grayscale,
    batch_size := batch_size, seed := seed, subset := Subset.training }

/-- Configuration of the validation image generator (line 88):
same as the training one except `subset="validation"`. -/
def image_generator_val_cfg (img_path : String) (batch_size seed : ℕ)
    (val_split : ℚ) : FlowConfig :=
  { datagen := data_gen_args val_split, directory := img_path,
    class_mode := ClassMode.none, color_mode := ColorMode.rgb,
    batch_size := batch_size, seed := seed, subset := Subset.validation }

/-- Configuration of the validation mask generator (line 96). -/
def mask_generator_val_cfg (mask_path : String) (batch_size seed : ℕ)
    (val_split : ℚ) : FlowConfig :=
  { datagen := data_gen_args val_split, directory := mask_path,
    class_mode := ClassMode.none, color_mode := ColorMode.grayscale,
    batch_size := batch_size, seed := seed, subset := Subset.validation }

/-- The Python `for` loop of the `show` branch (line 110) iterates
`train_generator`, the zip of two directory iterators.  A Keras directory
iterator never raises StopIteration — it is modelled as a total stream —
so the loop never terminates and the surrounding call diverges. -/
def endlessLoop {Err A B : Type} (_stream : ℕ → B) : Outcome Err A :=
  Outcome.diverge

/-- Shallow embedding of `train_unet` (`segmed/train/train_unet.py`).

The four `flow_from_directory` calls happen first, in source order, each
able to raise.  `train_generator = (pair for pair in zip(...))` is a lazy
generator expression: it stores references to the two iterators and reads
them only when the framework pulls from it.  If `show_` is true, the
debugging branch loops over the (endless) training zip and never returns.
Otherwise line 118 runs `next(image_generator_train)` to obtain the input
shape, consuming batch 0 of the training image iterator; hence when
`fit_generator` later pulls pair `k` from `train_generator`, it receives
image batch `k + 1` paired with mask batch `k`.  The validation zip is
untouched before `fit_generator` and yields matching indices. -/
def train_unet {Batch Model Err History Shape Opt : Type}
    (fw : Framework Batch Model Err History Shape Opt)
    (segmodel : SegModel Shape Err Model)
    (img_path mask_path : String)
    (batch_size epochs steps_per_epoch : ℕ)
    (val_split : ℚ) (optimizer : Opt)
    (monitor model_file : String)
    (seed : ℕ) (show_ : Bool) :
    Outcome Err (Trace Batch Model History Opt) :=
  match fw.flow (image_generator_train_cfg img_path batch_size seed val_split) with
  | Except.error e => Outcome.error e
  | Except.ok image_generator_train =>
  match fw.flow (mask_generator_train_cfg mask_path batch_size seed val_split) with
  | Except.error e => Outcome.error e
  | Except.ok mask_generator_train =>
  match fw.flow (image_generator_val_cfg img_path batch_size seed val_split) with
  | Except.error e => Outcome.error e
  | Except.ok image_generator_val =>
  match fw.flow (mask_generator_val_cfg mask_path batch_size seed val_split) with
  | Except.error e => Outcome.error e
  | Except.ok mask_generator_val =>
  if show_ then
    endlessLoop (fun k => (image_generator_train k, mask_generator_train k))
  else
    match segmodel.collect (fw.shapeOf (image_generator_train 0)) with
    | Except.error e => Outcome.error e
    | Except.ok model =>
    let checkpoint : CheckpointConfig :=
      { filepath := model_file, monitor := monitor, verbose := 1,
        save_best_only := true, mode := CkptMode.max }
    let compileCfg : CompileConfig Opt :=
      { loss := Loss.binary_crossentropy, optimizer := optimizer,
        metrics := [Metric.jaccard_index, Metric.dice_coef] }
    match fw.compile model compileCfg with
    | Except.error e => Outcome.error e
    | Except.ok compiled =>
    let fitCfg : FitConfig Batch :=
      { generator := fun k => (image_generator_train (k + 1), mask_generator_train k),
        steps_per_epoch := steps_per_epoch, epochs := epochs,
        callbacks := [checkpoint], verbose := 1,
        validation_data := fun k => (image_generator_val k, mask_generator_val k),
        validation_steps := steps_per_epoch }
    match fw.fit compiled fitCfg with
    | Except.error e => Outcome.error e
    | Except.ok history =>
    Outcome.ok
      { data_gen_args := data_gen_args val_split,
        image_generator_train := image_generator_train_cfg img_path batch_size seed val_split,
        mask_generator_train := mask_generator_train_cfg mask_path batch_size seed val_split,
        image_generator_val := image_generator_val_cfg img_path batch_size seed val_split,
        mask_generator_val := mask_generator_val_cfg mask_path batch_size seed val_split,
        image_train_stream := image_generator_train,
        mask_train_stream := mask_generator_train,
        image_val_stream := image_generator_val,
        mask_val_stream := mask_generator_val,
        checkpoint := checkpoint,
        compileCfg := compileCfg,
        fitCfg := fitCfg,
        built_model := model,
        compiled_model := compiled,
        history := history }

/-- Inversion of a completed run: `train_unet` returns `Outcome.ok t` only
when `show_` is false and every framework call succeeded, and then `t`
records exactly the configurations built by the source lines. -/
theorem train_unet_ok_inv {Batch Model Err History Shape Opt : Type}
    (fw : Framework Batch Model Err History Shape Opt)
    (segmodel : SegModel Shape Err Model)
    (img_path mask_path : String) (batch_size epochs steps_per_epoch : ℕ)
    (val_split : ℚ) (optimizer : Opt) (monitor model_file : String)
    (seed : ℕ) (show_ : Bool) (t : Trace Batch Model History Opt)
    (h : train_unet fw segmodel img_path mask_path batch_size epochs
      steps_per_epoch val_split optimizer monitor model_file seed show_ =
      Outcome.ok t) :
    show_ = false ∧
    fw.flow (image_generator_train_cfg img_path batch_size seed val_split) =
      Except.ok t.image_train_stream ∧
    fw.flow (mask_generator_train_cfg mask_path batch_size seed val_split) =
      Except.ok t.mask_train_stream ∧
    fw.flow (image_generator_val_cfg img_path batch_size seed val_split) =
      Except.ok t.image_val_stream ∧
    fw.flow (mask_generator_val_cfg mask_path batch_size seed val_split) =
      Except.ok t.mask_val_stream ∧
    segmodel.collect (fw.shapeOf (t.image_train_stream 0)) =
      Except.ok t.built_model ∧
    fw.compile t.built_model t.compileCfg = Except.ok t.compiled_model ∧
    fw.fit t.compiled_model t.fitCfg = Except.ok t.history ∧
    t.data_gen_args = data_gen_args val_split ∧
    t.image_generator_train = image_generator_train_cfg img_path batch_size seed val_split ∧
    t.mask_generator_train = mask_generator_train_cfg mask_path batch_size seed val_split ∧
    t.image_generator_val = image_generator_val_cfg img_path batch_size seed val_split ∧
    t.mask_generator_val = mask_generator_val_cfg mask_path batch_size seed val_split ∧
    t.checkpoint = { filepath := model_file, monitor := monitor, verbose := 1,
                     save_best_only := true, mode := CkptMode.max } ∧
    t.compileCfg = { loss := Loss.binary_crossentropy, optimizer := optimizer,
                     metrics := [Metric.jaccard_index, Metric.dice_coef] } ∧
    t.fitCfg = { generator := fun k => (t.image_train_stream (k + 1), t.mask_train_stream k),
                 steps_per_epoch := steps_per_epoch, epochs := epochs,
                 callbacks := [t.checkpoint], verbose := 1,
                 validation_data := fun k => (t.image_val_stream k, t.mask_val_stream k),
                 validation_steps := steps_per_epoch } := by
  unfold train_unet at h
  split at h
  · exact Outcome.noConfusion h
  rename_i g1 h1
  split at h
  · exact Outcome.noConfusion h
  rename_i g2 h2
  split at h
  · exact Outcome.noConfusion h
  rename_i g3 h3
  split at h
  · exact Outcome.noConfusion h
  rename_i g4 h4
  split at h
  · exact Outcome.noConfusion h
  rename_i hb
  split at h
  · exact Outcome.noConfusion h
  rename_i mdl h5
  unfold_let at h
  split at h
  · exact Outcome.noConfusion h
  rename_i cmdl h6
  split at h
  · exact Outcome.noConfusion h
  rename_i hist h7
  injection h with h8
  subst h8
  exact ⟨by simpa using hb, h1, h2, h3, h4, h5, h6, h7,
    rfl, rfl, rfl, rfl, rfl, rfl, rfl, rfl⟩

/-- A concrete framework over ℕ used to evaluate the embedding on closed
inputs: every directory generator yields batch `k` at position `k`, the
shape of a batch is the batch itself, compiling returns the model
unchanged and fitting returns history `0`.  All calls succeed. -/
def natFW : Framework ℕ ℕ ℕ ℕ ℕ ℕ :=
  { flow := fun _ => Except.ok (fun k => k),
    shapeOf := fun b => b,
    compile := fun m _ => Except.ok m,
    fit := fun _ _ => Except.ok 0 }

/-- A concrete segmentation model whose `collect` succeeds, returning the
input shape as the model. -/
def natSM : SegModel ℕ ℕ ℕ :=
  { collect := fun s => Except.ok s }

/-- A concrete framework whose `flow_from_directory` raises error 42
(for example because the directory does not exist). -/
def failFlowFW : Framework ℕ ℕ ℕ ℕ ℕ ℕ :=
  { flow := fun _ => Except.error 42,
    shapeOf := fun b => b,
    compile := fun m _ => Except.ok m,
    fit := fun _ _ => Except.ok 0 }

/-- The trace produced by `train_unet natFW natSM "images" "masks"
16 25 3125 (1/5) 0 "val_jaccard_index" "unet.h5" 1 false`. -/
def natTrace : Trace ℕ ℕ ℕ ℕ :=
  { data_gen_args := data_gen_args (1 / 5),
    image_generator_train := image_generator_train_cfg "images" 16 1 (1 / 5),
    mask_generator_train := mask_generator_train_cfg "masks" 16 1 (1 / 5),
    image_generator_val := image_generator_val_cfg "images" 16 1 (1 / 5),
    mask_generator_val := mask_generator_val_cfg "masks" 16 1 (1 / 5),
    image_train_stream := fun k => k,
    mask_train_stream := fun k => k,
    image_val_stream := fun k => k,
    mask_val_stream := fun k => k,
    checkpoint := { filepath := "unet.h5", monitor := "val_jaccard_index",
                    verbose := 1, save_best_only := true, mode := CkptMode.max },
    compileCfg := { loss := Loss.binary_crossentropy, optimizer := 0,
                    metrics := [Metric.jaccard_index, Metric.dice_coef] },
    fitCfg := { generator := fun k => (k + 1, k),
                steps_per_epoch := 3125, epochs := 25,
                callbacks := [{ filepath := "unet.h5", monitor := "val_jaccard_index",
                                verbose := 1, save_best_only := true, mode := CkptMode.max }],
                verbose := 1,
                validation_data := fun k => (k, k),
                validation_steps := 3125 },
    built_model := 0,
    compiled_model := 0,
    history := 0 }

/-- The trace produced by `train_unet natFW natSM "imgs" "msks"
8 2 10 (1/4) 5 "val_loss" "m.h5" 3 false`. -/
def natTrace2 : Trace ℕ ℕ ℕ ℕ :=
  { data_gen_args := data_gen_args (1 / 4),
    image_generator_train := image_generator_train_cfg "imgs" 8 3 (1 / 4),
    mask_generator_train := mask_generator_train_cfg "msks" 8 3 (1 / 4),
    image_generator_val := image_generator_val_cfg "imgs" 8 3 (1 / 4),
    mask_generator_val := mask_generator_val_cfg "msks" 8 3 (1 / 4),
    image_train_stream := fun k => k,
    mask_train_stream := fun k => k,
    image_val_stream := fun k => k,
    mask_val_stream := fun k => k,
    checkpoint := { filepath := "m.h5", monitor := "val_loss",
                    verbose := 1, save_best_only := true, mode := CkptMode.max },
    compileCfg := { loss := Loss.binary_crossentropy, optimizer := 5,
                    metrics := [Metric.jaccard_index, Metric.dice_coef] },
    fitCfg := { generator := fun k => (k + 1, k),
                steps_per_epoch := 10, epochs := 2,
                callbacks := [{ filepath := "m.h5", monitor := "val_loss",
                                verbose := 1, save_best_only := true, mode := CkptMode.max }],
                verbose := 1,
                validation_data := fun k => (k, k),
                validation_steps := 10 },
    built_model := 0,
    compiled_model := 0,
    history := 0 }

/-- Evaluation check: the concrete run indeed completes with `natTrace`. -/
theorem natRun_eq :
    train_unet natFW natSM "images" "masks" 16 25 3125 (1 / 5) 0
      "val_jaccard_index" "unet.h5" 1 false = Outcome.ok natTrace := rfl

/-- Evaluation check: the second concrete run completes with `natTrace2`. -/
theorem natRun2_eq :
    train_unet natFW natSM "imgs" "msks" 8 2 10 (1 / 4) 5
      "val_loss" "m.h5" 3 false = Outcome.ok natTrace2 := rfl

/-- Claim C1: evaluation of the code at a failing input.  On a concrete
completed run, the pair at position 0 of the training stream handed to
fit_generator is (image batch 1, mask batch 0), not (image batch 0,
mask batch 0): the input-size probe next(image_generator_train) on line
118 consumes image batch 0 after the lazy zip was created, so images and
masks do not stay paired during training. -/
theorem train_stream_desynced_by_input_size_probe :
    train_unet natFW natSM "images" "masks" 16 25 3125 (1 / 5) 0
      "val_jaccard_index" "unet.h5" 1 false = Outcome.ok natTrace ∧
    natTrace.fitCfg.generator 0 =
      (natTrace.image_train_stream 1, natTrace.mask_train_stream 0) ∧
    natTrace.fitCfg.generator 0 ≠
      (natTrace.image_train_stream 0, natTrace.mask_train_stream 0) :=
  ⟨rfl, rfl, by decide⟩

/-- Claim C7: evaluation of the code at a failing input.  The validation
stream fed to fit_generator is exactly the element-wise zip of the image
and mask validation generators, and on every index the training stream is
the zip shifted by one image batch, so the training stream is not the
element-wise zip of what the two training generators produce. -/
theorem train_streams_not_exact_zip :
    train_unet natFW natSM "imgs" "msks" 8 2 10 (1 / 4) 5
      "val_loss" "m.h5" 3 false = Outcome.ok natTrace2 ∧
    (∀ k, natTrace2.fitCfg.validation_data k =
      (natTrace2.image_val_stream k, natTrace2.mask_val_stream k)) ∧
    (∀ k, natTrace2.fitCfg.generator k =
      (natTrace2.image_train_stream (k + 1), natTrace2.mask_train_stream k)) ∧
    natTrace2.fitCfg.generator 0 ≠
      (natTrace2.image_train_stream 0, natTrace2.mask_train_stream 0) :=
  ⟨rfl, fun _ => rfl, fun _ => rfl, by decide⟩

/-- Claim C2: every call that completes returns the History produced by
the fit call of the framework, and registers a ModelCheckpoint callback on
model_file with save_best_only true monitoring the monitor quantity, that
callback being the one handed to the fit call. -/
theorem train_unet_returns_fit_history_with_best_checkpoint
    {Batch Model Err History Shape Opt : Type}
    (fw : Framework Batch Model Err History Shape Opt)
    (segmodel : SegModel Shape Err Model)
    (img_path mask_path : String) (batch_size epochs steps_per_epoch : ℕ)
    (val_split : ℚ) (optimizer : Opt) (monitor model_file : String)
    (seed : ℕ) (show_ : Bool) (t : Trace Batch Model History Opt)
    (h : train_unet fw segmodel img_path mask_path batch_size epochs
      steps_per_epoch val_split optimizer monitor model_file seed show_ =
      Outcome.ok t) :
    fw.fit t.compiled_model t.fitCfg = Except.ok t.history ∧
    t.checkpoint = { filepath := model_file, monitor := monitor, verbose := 1,
                     save_best_only := true, mode := CkptMode.max } ∧
    t.fitCfg.callbacks = [t.checkpoint] := by
  obtain ⟨-, -, -, -, -, -, -, h7, -, -, -, -, -, hck, -, hfc⟩ :=
    train_unet_ok_inv fw segmodel img_path mask_path batch_size epochs
      steps_per_epoch val_split optimizer monitor model_file seed show_ t h
  exact ⟨h7, hck, by rw [hfc]⟩

/-- Witness for claim C2 at a concrete completed run. -/
theorem train_unet_returns_fit_history_with_best_checkpoint_witness :
    natFW.fit natTrace.compiled_model natTrace.fitCfg = Except.ok natTrace.history ∧
    natTrace.checkpoint = { filepath := "unet.h5", monitor := "val_jaccard_index",
                            verbose := 1, save_best_only := true, mode := CkptMode.max } ∧
    natTrace.fitCfg.callbacks = [natTrace.checkpoint] :=
  train_unet_returns_fit_history_with_best_checkpoint natFW natSM
    "images" "masks" 16 25 3125 (1 / 5) 0 "val_jaccard_index" "unet.h5" 1
    false natTrace rfl

/-- Claim C3: both image and mask generators carry validation_split equal
to the val_split argument; the training stream handed to the fit call is
built from the batch streams of the two subset training generators (the
image side shifted by the input-size probe), and a separate validation
stream built from the batch streams of the subset validation generators
over the same two directories is the validation_data of the fit call. -/
theorem train_unet_validation_split_configuration
    {Batch Model Err History Shape Opt : Type}
    (fw : Framework Batch Model Err History Shape Opt)
    (segmodel : SegModel Shape Err Model)
    (img_path mask_path : String) (batch_size epochs steps_per_epoch : ℕ)
    (val_split : ℚ) (optimizer : Opt) (monitor model_file : String)
    (seed : ℕ) (show_ : Bool) (t : Trace Batch Model History Opt)
    (h : train_unet fw segmodel img_path mask_path batch_size epochs
      steps_per_epoch val_split optimizer monitor model_file seed show_ =
      Outcome.ok t) :
    t.image_generator_train.datagen.validation_split = val_split ∧
    t.mask_generator_train.datagen.validation_split = val_split ∧
    t.image_generator_val.datagen.validation_split = val_split ∧
    t.mask_generator_val.datagen.validation_split = val_split ∧
    t.image_generator_train.subset = Subset.training ∧
    t.mask_generator_train.subset = Subset.training ∧
    t.image_generator_val.subset = Subset.validation ∧
    t.mask_generator_val.subset = Subset.validation ∧
    t.image_generator_val.directory = t.image_generator_train.directory ∧
    t.mask_generator_val.directory = t.mask_generator_train.directory ∧
    t.fitCfg.validation_data =
      (fun k => (t.image_val_stream k, t.mask_val_stream k)) ∧
    fw.flow (image_generator_train_cfg img_path batch_size seed val_split) =
      Except.ok t.image_train_stream ∧
    fw.flow (mask_generator_train_cfg mask_path batch_size seed val_split) =
      Except.ok t.mask_train_stream ∧
    fw.flow (image_generator_val_cfg img_path batch_size seed val_split) =
      Except.ok t.image_val_stream ∧
    fw.flow (mask_generator_val_cfg mask_path batch_size seed val_split) =
      Except.ok t.mask_val_stream ∧
    t.fitCfg.generator =
      (fun k => (t.image_train_stream (k + 1), t.mask_train_stream k)) := by
  obtain ⟨-, h1, h2, h3, h4, -, -, -, -, hc1, hc2, hc3, hc4, -, -, hfc⟩ :=
    train_unet_ok_inv fw segmodel img_path mask_path batch_size epochs
      steps_per_epoch val_split optimizer monitor model_file seed show_ t h
  refine ⟨?_, ?_, ?_, ?_, ?_, ?_, ?_, ?_, ?_, ?_, by rw [hfc], h1, h2, h3, h4,
    by rw [hfc]⟩ <;>
  simp [hc1, hc2, hc3, hc4, image_generator_train_cfg,
    mask_generator_train_cfg, image_generator_val_cfg,
    mask_generator_val_cfg, data_gen_args]

/-- Witness for claim C3 at a concrete completed run. -/
theorem train_unet_validation_split_configuration_witness :
    natTrace.image_generator_train.datagen.validation_split = 1 / 5 ∧
    natTrace.mask_generator_train.datagen.validation_split = 1 / 5 ∧
    natTrace.image_generator_val.datagen.validation_split = 1 / 5 ∧
    natTrace.mask_generator_val.datagen.validation_split = 1 / 5 ∧
    natTrace.image_generator_train.subset = Subset.training ∧
    natTrace.mask_generator_train.subset = Subset.training ∧
    natTrace.image_generator_val.subset = Subset.validation ∧
    natTrace.mask_generator_val.subset = Subset.validation ∧
    natTrace.image_generator_val.directory = natTrace.image_generator_train.directory ∧
    natTrace.mask_generator_val.directory = natTrace.mask_generator_train.directory ∧
    natTrace.fitCfg.validation_data =
      (fun k => (natTrace.image_val_stream k, natTrace.mask_val_stream k)) ∧
    natFW.flow (image_generator_train_cfg "images" 16 1 (1 / 5)) =
      Except.ok natTrace.image_train_stream ∧
    natFW.flow (mask_generator_train_cfg "masks" 16 1 (1 / 5)) =
      Except.ok natTrace.mask_train_stream ∧
    natFW.flow (image_generator_val_cfg "images" 16 1 (1 / 5)) =
      Except.ok natTrace.image_val_stream ∧
    natFW.flow (mask_generator_val_cfg "masks" 16 1 (1 / 5)) =
      Except.ok natTrace.mask_val_stream ∧
    natTrace.fitCfg.generator =
      (fun k => (natTrace.image_train_stream (k + 1), natTrace.mask_train_stream k)) :=
  train_unet_validation_split_configuration natFW natSM
    "images" "masks" 16 25 3125 (1 / 5) 0 "val_jaccard_index" "unet.h5" 1
    false natTrace rfl

/-- Claim C4: every call that completes compiled the built model with
exactly the metrics list [jaccard_index, dice_coef], binary cross-entropy
loss and the supplied optimizer, and the fit call received the model
produced by that compile step. -/
theorem train_unet_compiles_custom_metrics
    {Batch Model Err History Shape Opt : Type}
    (fw : Framework Batch Model Err History Shape Opt)
    (segmodel : SegModel Shape Err Model)
    (img_path mask_path : String) (batch_size epochs steps_per_epoch : ℕ)
    (val_split : ℚ) (optimizer : Opt) (monitor model_file : String)
    (seed : ℕ) (show_ : Bool) (t : Trace Batch Model History Opt)
    (h : train_unet fw segmodel img_path mask_path batch_size epochs
      steps_per_epoch val_split optimizer monitor model_file seed show_ =
      Outcome.ok t) :
    t.compileCfg.metrics = [Metric.jaccard_index, Metric.dice_coef] ∧
    t.compileCfg.loss = Loss.binary_crossentropy ∧
    t.compileCfg.optimizer = optimizer ∧
    fw.compile t.built_model t.compileCfg = Except.ok t.compiled_model ∧
    fw.fit t.compiled_model t.fitCfg = Except.ok t.history := by
  obtain ⟨-, -, -, -, -, -, h6, h7, -, -, -, -, -, -, hcc, -⟩ :=
    train_unet_ok_inv fw segmodel img_path mask_path batch_size epochs
      steps_per_epoch val_split optimizer monitor model_file seed show_ t h
  exact ⟨by rw [hcc], by rw [hcc], by rw [hcc], h6, h7⟩

/-- Witness for claim C4 at a concrete completed run. -/
theorem train_unet_compiles_custom_metrics_witness :
    natTrace.compileCfg.metrics = [Metric.jaccard_index, Metric.dice_coef] ∧
    natTrace.compileCfg.loss = Loss.binary_crossentropy ∧
    natTrace.compileCfg.optimizer = 0 ∧
    natFW.compile natTrace.built_model natTrace.compileCfg =
      Except.ok natTrace.compiled_model ∧
    natFW.fit natTrace.compiled_model natTrace.fitCfg =
      Except.ok natTrace.history :=
  train_unet_compiles_custom_metrics natFW natSM
    "images" "masks" 16 25 3125 (1 / 5) 0 "val_jaccard_index" "unet.h5" 1
    false natTrace rfl

/-- Claim C5: each configuration argument is forwarded unmodified to the
corresponding framework call: the two directory paths and the batch_size
and seed to all four flow_from_directory calls, val_split to the
validation_split entry of the generator arguments, epochs and
steps_per_epoch to the fit call (the latter also as validation_steps),
the optimizer to compile, and monitor and model_file to the checkpoint. -/
theorem train_unet_forwards_parameters_unmodified
    {Batch Model Err History Shape Opt : Type}
    (fw : Framework Batch Model Err History Shape Opt)
    (segmodel : SegModel Shape Err Model)
    (img_path mask_path : String) (batch_size epochs steps_per_epoch : ℕ)
    (val_split : ℚ) (optimizer : Opt) (monitor model_file : String)
    (seed : ℕ) (show_ : Bool) (t : Trace Batch Model History Opt)
    (h : train_unet fw segmodel img_path mask_path batch_size epochs
      steps_per_epoch val_split optimizer monitor model_file seed show_ =
      Outcome.ok t) :
    t.image_generator_train.directory = img_path ∧
    t.image_generator_val.directory = img_path ∧
    t.mask_generator_train.directory = mask_path ∧
    t.mask_generator_val.directory = mask_path ∧
    t.image_generator_train.batch_size = batch_size ∧
    t.mask_generator_train.batch_size = batch_size ∧
    t.image_generator_val.batch_size = batch_size ∧
    t.mask_generator_val.batch_size = batch_size ∧
    t.image_generator_train.seed = seed ∧
    t.mask_generator_train.seed = seed ∧
    t.image_generator_val.seed = seed ∧
    t.mask_generator_val.seed = seed ∧
    t.data_gen_args.validation_split = val_split ∧
    t.fitCfg.epochs = epochs ∧
    t.fitCfg.steps_per_epoch = steps_per_epoch ∧
    t.fitCfg.validation_steps = steps_per_epoch ∧
    t.compileCfg.optimizer = optimizer ∧
    t.checkpoint.monitor = monitor ∧
    t.checkpoint.filepath = model_file := by
  obtain ⟨-, -, -, -, -, -, -, -, hdg, hc1, hc2, hc3, hc4, hck, hcc, hfc⟩ :=
    train_unet_ok_inv fw segmodel img_path mask_path batch_size epochs
      steps_per_epoch val_split optimizer monitor model_file seed show_ t h
  rw [hdg, hc1, hc2, hc3, hc4, hck, hcc, hfc]
  simp [image_generator_train_cfg, mask_generator_train_cfg,
    image_generator_val_cfg, mask_generator_val_cfg, data_gen_args]

/-- Witness for claim C5 at a concrete completed run. -/
theorem train_unet_forwards_parameters_unmodified_witness :
    natTrace.image_generator_train.directory = "images" ∧
    natTrace.image_generator_val.directory = "images" ∧
    natTrace.mask_generator_train.directory = "masks" ∧
    natTrace.mask_generator_val.directory = "masks" ∧
    natTrace.image_generator_train.batch_size = 16 ∧
    natTrace.mask_generator_train.batch_size = 16 ∧
    natTrace.image_generator_val.batch_size = 16 ∧
    natTrace.mask_generator_val.batch_size = 16 ∧
    natTrace.image_generator_train.seed = 1 ∧
    natTrace.mask_generator_train.seed = 1 ∧
    natTrace.image_generator_val.seed = 1 ∧
    natTrace.mask_generator_val.seed = 1 ∧
    natTrace.data_gen_args.validation_split = 1 / 5 ∧
    natTrace.fitCfg.epochs = 25 ∧
    natTrace.fitCfg.steps_per_epoch = 3125 ∧
    natTrace.fitCfg.validation_steps = 3125 ∧
    natTrace.compileCfg.optimizer = 0 ∧
    natTrace.checkpoint.monitor = "val_jaccard_index" ∧
    natTrace.checkpoint.filepath = "unet.h5" :=
  train_unet_forwards_parameters_unmodified natFW natSM
    "images" "masks" 16 25 3125 (1 / 5) 0 "val_jaccard_index" "unet.h5" 1
    false natTrace rfl

/-- Inversion of an error outcome: whenever `train_unet` raises an error,
that error is the error of one of the framework calls it made — one of
the four `flow_from_directory` calls, the model building step, compile,
or fit — so the function raises no errors of its own. -/
theorem train_unet_error_inv {Batch Model Err History Shape Opt : Type}
    (fw : Framework Batch Model Err History Shape Opt)
    (segmodel : SegModel Shape Err Model)
    (img_path mask_path : String) (batch_size epochs steps_per_epoch : ℕ)
    (val_split : ℚ) (optimizer : Opt) (monitor model_file : String)
    (seed : ℕ) (show_ : Bool) (e : Err)
    (h : train_unet fw segmodel img_path mask_path batch_size epochs
      steps_per_epoch val_split optimizer monitor model_file seed show_ =
      Outcome.error e) :
    fw.flow (image_generator_train_cfg img_path batch_size seed val_split) =
      Except.error e ∨
    fw.flow (mask_generator_train_cfg mask_path batch_size seed val_split) =
      Except.error e ∨
    fw.flow (image_generator_val_cfg img_path batch_size seed val_split) =
      Except.error e ∨
    fw.flow (mask_generator_val_cfg mask_path batch_size seed val_split) =
      Except.error e ∨
    (∃ g1, fw.flow (image_generator_train_cfg img_path batch_size seed val_split) =
        Except.ok g1 ∧
      segmodel.collect (fw.shapeOf (g1 0)) = Except.error e) ∨
    (∃ g1 mdl,
      fw.flow (image_generator_train_cfg img_path batch_size seed val_split) =
        Except.ok g1 ∧
      segmodel.collect (fw.shapeOf (g1 0)) = Except.ok mdl ∧
      fw.compile mdl { loss := Loss.binary_crossentropy, optimizer := optimizer,
                       metrics := [Metric.jaccard_index, Metric.dice_coef] } =
        Except.error e) ∨
    (∃ g1 g2 g3 g4 mdl cmdl,
      fw.flow (image_generator_train_cfg img_path batch_size seed val_split) =
        Except.ok g1 ∧
      fw.flow (mask_generator_train_cfg mask_path batch_size seed val_split) =
        Except.ok g2 ∧
      fw.flow (image_generator_val_cfg img_path batch_size seed val_split) =
        Except.ok g3 ∧
      fw.flow (mask_generator_val_cfg mask_path batch_size seed val_split) =
        Except.ok g4 ∧
      segmodel.collect (fw.shapeOf (g1 0)) = Except.ok mdl ∧
      fw.compile mdl { loss := Loss.binary_crossentropy, optimizer := optimizer,
                       metrics := [Metric.jaccard_index, Metric.dice_coef] } =
        Except.ok cmdl ∧
      fw.fit cmdl { generator := fun k => (g1 (k + 1), g2 k),
                    steps_per_epoch := steps_per_epoch, epochs := epochs,
                    callbacks := [{ filepath := model_file, monitor := monitor,
                                    verbose := 1, save_best_only := true,
                                    mode := CkptMode.max }],
                    verbose := 1,
                    validation_data := fun k => (g3 k, g4 k),
                    validation_steps := steps_per_epoch } = Except.error e) := by
  unfold train_unet at h
  split at h
  · rename_i e1 h1
    injection h with he
    subst he
    exact Or.inl h1
  rename_i g1 h1
  split at h
  · rename_i e2 h2
    injection h with he
    subst he
    exact Or.inr (Or.inl h2)
  rename_i g2 h2
  split at h
  · rename_i e3 h3
    injection h with he
    subst he
    exact Or.inr (Or.inr (Or.inl h3))
  rename_i g3 h3
  split at h
  · rename_i e4 h4
    injection h with he
    subst he
    exact Or.inr (Or.inr (Or.inr (Or.inl h4)))
  rename_i g4 h4
  split at h
  · exact Outcome.noConfusion h
  rename_i hb
  split at h
  · rename_i e5 h5
    injection h with he
    subst he
    exact Or.inr (Or.inr (Or.inr (Or.inr (Or.inl ⟨g1, h1, h5⟩))))
  rename_i mdl h5
  unfold_let at h
  split at h
  · rename_i e6 h6
    injection h with he
    subst he
    exact Or.inr (Or.inr (Or.inr (Or.inr (Or.inr (Or.inl ⟨g1, mdl, h1, h5, h6⟩)))))
  rename_i cmdl h6
  split at h
  · rename_i e7 h7
    injection h with he
    subst he
    exact Or.inr (Or.inr (Or.inr (Or.inr (Or.inr (Or.inr
      ⟨g1, g2, g3, g4, mdl, cmdl, h1, h2, h3, h4, h5, h6, h7⟩)))))
  exact Outcome.noConfusion h

/-- Claim C6: train_unet contains no exception handling, so an error
raised by any framework call — generator construction (any of the four
flow_from_directory calls), model building, compile, or fit — propagates
unchanged to the caller, and the function raises no errors beyond those:
every error outcome is the error of one of its framework calls. -/
theorem train_unet_propagates_framework_errors
    {Batch Model Err History Shape Opt : Type}
    (fw : Framework Batch Model Err History Shape Opt)
    (segmodel : SegModel Shape Err Model)
    (img_path mask_path : String) (batch_size epochs steps_per_epoch : ℕ)
    (val_split : ℚ) (optimizer : Opt) (monitor model_file : String)
    (seed : ℕ) (show_ : Bool) (e : Err) :
    (fw.flow (image_generator_train_cfg img_path batch_size seed val_split) =
        Except.error e →
      train_unet fw segmodel img_path mask_path batch_size epochs
        steps_per_epoch val_split optimizer monitor model_file seed show_ =
        Outcome.error e) ∧
    (∀ g1, fw.flow (image_generator_train_cfg img_path batch_size seed val_split) =
        Except.ok g1 →
      fw.flow (mask_generator_train_cfg mask_path batch_size seed val_split) =
        Except.error e →
      train_unet fw segmodel img_path mask_path batch_size epochs
        steps_per_epoch val_split optimizer monitor model_file seed show_ =
        Outcome.error e) ∧
    (∀ g1 g2, fw.flow (image_generator_train_cfg img_path batch_size seed val_split) =
        Except.ok g1 →
      fw.flow (mask_generator_train_cfg mask_path batch_size seed val_split) =
        Except.ok g2 →
      fw.flow (image_generator_val_cfg img_path batch_size seed val_split) =
        Except.error e →
      train_unet fw segmodel img_path mask_path batch_size epochs
        steps_per_epoch val_split optimizer monitor model_file seed show_ =
        Outcome.error e) ∧
    (∀ g1 g2 g3, fw.flow (image_generator_train_cfg img_path batch_size seed val_split) =
        Except.ok g1 →
      fw.flow (mask_generator_train_cfg mask_path batch_size seed val_split) =
        Except.ok g2 →
      fw.flow (image_generator_val_cfg img_path batch_size seed val_split) =
        Except.ok g3 →
      fw.flow (mask_generator_val_cfg mask_path batch_size seed val_split) =
        Except.error e →
      train_unet fw segmodel img_path mask_path batch_size epochs
        steps_per_epoch val_split optimizer monitor model_file seed show_ =
        Outcome.error e) ∧
    (∀ g1 g2 g3 g4, fw.flow (image_generator_train_cfg img_path batch_size seed val_split) =
        Except.ok g1 →
      fw.flow (mask_generator_train_cfg mask_path batch_size seed val_split) =
        Except.ok g2 →
      fw.flow (image_generator_val_cfg img_path batch_size seed val_split) =
        Except.ok g3 →
      fw.flow (mask_generator_val_cfg mask_path batch_size seed val_split) =
        Except.ok g4 →
      segmodel.collect (fw.shapeOf (g1 0)) = Except.error e →
      train_unet fw segmodel img_path mask_path batch_size epochs
        steps_per_epoch val_split optimizer monitor model_file seed false =
        Outcome.error e) ∧
    (∀ g1 g2 g3 g4 mdl,
      fw.flow (image_generator_train_cfg img_path batch_size seed val_split) =
        Except.ok g1 →
      fw.flow (mask_generator_train_cfg mask_path batch_size seed val_split) =
        Except.ok g2 →
      fw.flow (image_generator_val_cfg img_path batch_size seed val_split) =
        Except.ok g3 →
      fw.flow (mask_generator_val_cfg mask_path batch_size seed val_split) =
        Except.ok g4 →
      segmodel.collect (fw.shapeOf (g1 0)) = Except.ok mdl →
      fw.compile mdl { loss := Loss.binary_crossentropy, optimizer := optimizer,
                       metrics := [Metric.jaccard_index, Metric.dice_coef] } =
        Except.error e →
      train_unet fw segmodel img_path mask_path batch_size epochs
        steps_per_epoch val_split optimizer monitor model_file seed false =
        Outcome.error e) ∧
    (∀ g1 g2 g3 g4 mdl cmdl,
      fw.flow (image_generator_train_cfg img_path batch_size seed val_split) =
        Except.ok g1 →
      fw.flow (mask_generator_train_cfg mask_path batch_size seed val_split) =
        Except.ok g2 →
      fw.flow (image_generator_val_cfg img_path batch_size seed val_split) =
        Except.ok g3 →
      fw.flow (mask_generator_val_cfg mask_path batch_size seed val_split) =
        Except.ok g4 →
      segmodel.collect (fw.shapeOf (g1 0)) = Except.ok mdl →
      fw.compile mdl { loss := Loss.binary_crossentropy, optimizer := optimizer,
                       metrics := [Metric.jaccard_index, Metric.dice_coef] } =
        Except.ok cmdl →
      fw.fit cmdl { generator := fun k => (g1 (k + 1), g2 k),
                    steps_per_epoch := steps_per_epoch, epochs := epochs,
                    callbacks := [{ filepath := model_file, monitor := monitor,
                                    verbose := 1, save_best_only := true,
                                    mode := CkptMode.max }],
                    verbose := 1,
                    validation_data := fun k => (g3 k, g4 k),
                    validation_steps := steps_per_epoch } = Except.error e →
      train_unet fw segmodel img_path mask_path batch_size epochs
        steps_per_epoch val_split optimizer monitor model_file seed false =
        Outcome.error e) ∧
    (train_unet fw segmodel img_path mask_path batch_size epochs
        steps_per_epoch val_split optimizer monitor model_file seed show_ =
        Outcome.error e →
      fw.flow (image_generator_train_cfg img_path batch_size seed val_split) =
        Except.error e ∨
      fw.flow (mask_generator_train_cfg mask_path batch_size seed val_split) =
        Except.error e ∨
      fw.flow (image_generator_val_cfg img_path batch_size seed val_split) =
        Except.error e ∨
      fw.flow (mask_generator_val_cfg mask_path batch_size seed val_split) =
        Except.error e ∨
      (∃ g1, fw.flow (image_generator_train_cfg img_path batch_size seed val_split) =
          Except.ok g1 ∧
        segmodel.collect (fw.shapeOf (g1 0)) = Except.error e) ∨
      (∃ g1 mdl,
        fw.flow (image_generator_train_cfg img_path batch_size seed val_split) =
          Except.ok g1 ∧
        segmodel.collect (fw.shapeOf (g1 0)) = Except.ok mdl ∧
        fw.compile mdl { loss := Loss.binary_crossentropy, optimizer := optimizer,
                         metrics := [Metric.jaccard_index, Metric.dice_coef] } =
          Except.error e) ∨
      (∃ g1 g2 g3 g4 mdl cmdl,
        fw.flow (image_generator_train_cfg img_path batch_size seed val_split) =
          Except.ok g1 ∧
        fw.flow (mask_generator_train_cfg mask_path batch_size seed val_split) =
          Except.ok g2 ∧
        fw.flow (image_generator_val_cfg img_path batch_size seed val_split) =
          Except.ok g3 ∧
        fw.flow (mask_generator_val_cfg mask_path batch_size seed val_split) =
          Except.ok g4 ∧
        segmodel.collect (fw.shapeOf (g1 0)) = Except.ok mdl ∧
        fw.compile mdl { loss := Loss.binary_crossentropy, optimizer := optimizer,
                         metrics := [Metric.jaccard_index, Metric.dice_coef] } =
          Except.ok cmdl ∧
        fw.fit cmdl { generator := fun k => (g1 (k + 1), g2 k),
                      steps_per_epoch := steps_per_epoch, epochs := epochs,
                      callbacks := [{ filepath := model_file, monitor := monitor,
                                      verbose := 1, save_best_only := true,
                                      mode := CkptMode.max }],
                      verbose := 1,
                      validation_data := fun k => (g3 k, g4 k),
                      validation_steps := steps_per_epoch } = Except.error e)) := by
  refine ⟨fun h1 => ?_, fun g1 h1 h2 => ?_, fun g1 g2 h1 h2 h3 => ?_,
    fun g1 g2 g3 h1 h2 h3 h4 => ?_, fun g1 g2 g3 g4 h1 h2 h3 h4 h5 => ?_,
    fun g1 g2 g3 g4 mdl h1 h2 h3 h4 h5 h6 => ?_,
    fun g1 g2 g3 g4 mdl cmdl h1 h2 h3 h4 h5 h6 h7 => ?_,
    fun h => train_unet_error_inv fw segmodel img_path mask_path batch_size
      epochs steps_per_epoch val_split optimizer monitor model_file seed
      show_ e h⟩ <;>
  · unfold train_unet
    simp [h1]
    try simp [h2]
    try simp [h3]
    try simp [h4]
    try simp [h5]
    try simp [h6]
    try simp [h7]

/-- Witness for claim C6: with a framework whose flow_from_directory
raises error 42, the call raises error 42. -/
theorem train_unet_propagates_framework_errors_witness :
    train_unet failFlowFW natSM "images" "masks" 16 25 3125 (1 / 5) 0
      "val_jaccard_index" "unet.h5" 1 false = Outcome.error 42 :=
  (train_unet_propagates_framework_errors failFlowFW natSM "images" "masks"
    16 25 3125 (1 / 5) 0 "val_jaccard_index" "unet.h5" 1 false 42).1 rfl

/-- Claim C8: the ModelCheckpoint callback is always constructed with mode
max, whatever the monitor argument is; no completed run carries mode min
or auto. -/
theorem train_unet_checkpoint_mode_always_max
    {Batch Model Err History Shape Opt : Type}
    (fw : Framework Batch Model Err History Shape Opt)
    (segmodel : SegModel Shape Err Model)
    (img_path mask_path : String) (batch_size epochs steps_per_epoch : ℕ)
    (val_split : ℚ) (optimizer : Opt) (monitor model_file : String)
    (seed : ℕ) (show_ : Bool) (t : Trace Batch Model History Opt)
    (h : train_unet fw segmodel img_path mask_path batch_size epochs
      steps_per_epoch val_split optimizer monitor model_file seed show_ =
      Outcome.ok t) :
    t.checkpoint.mode = CkptMode.max ∧
    t.checkpoint.monitor = monitor ∧
    t.checkpoint.save_best_only = true := by
  obtain ⟨-, -, -, -, -, -, -, -, -, -, -, -, -, hck, -, -⟩ :=
    train_unet_ok_inv fw segmodel img_path mask_path batch_size epochs
      steps_per_epoch val_split optimizer monitor model_file seed show_ t h
  exact ⟨by rw [hck], by rw [hck], by rw [hck]⟩

/-- Witness for claim C8 on a completed run whose monitor is the
lower-is-better quantity val_loss: the mode is still max. -/
theorem train_unet_checkpoint_mode_always_max_witness :
    natTrace2.checkpoint.mode = CkptMode.max ∧
    natTrace2.checkpoint.monitor = "val_loss" ∧
    natTrace2.checkpoint.save_best_only = true :=
  train_unet_checkpoint_mode_always_max natFW natSM
    "imgs" "msks" 8 2 10 (1 / 4) 5 "val_loss" "m.h5" 3 false natTrace2 rfl

/-- Claim C9: the seed argument is forwarded to all four
flow_from_directory calls, and the outcome of a completed call is a
function of its arguments: a second call with equal arguments over the
same framework completes with the identical trace, hence identical
generator configurations and identical batch streams. -/
theorem train_unet_seed_deterministic
    {Batch Model Err History Shape Opt : Type}
    (fw : Framework Batch Model Err History Shape Opt)
    (segmodel : SegModel Shape Err Model)
    (img_path mask_path : String) (batch_size epochs steps_per_epoch : ℕ)
    (val_split : ℚ) (optimizer : Opt) (monitor model_file : String)
    (seed : ℕ) (show_ : Bool) (t t2 : Trace Batch Model History Opt)
    (h : train_unet fw segmodel img_path mask_path batch_size epochs
      steps_per_epoch val_split optimizer monitor model_file seed show_ =
      Outcome.ok t) :
    t.image_generator_train.seed = seed ∧
    t.mask_generator_train.seed = seed ∧
    t.image_generator_val.seed = seed ∧
    t.mask_generator_val.seed = seed ∧
    (train_unet fw segmodel img_path mask_path batch_size epochs
      steps_per_epoch val_split optimizer monitor model_file seed show_ =
      Outcome.ok t2 → t2 = t) := by
  obtain ⟨-, -, -, -, -, -, -, -, -, hc1, hc2, hc3, hc4, -, -, -⟩ :=
    train_unet_ok_inv fw segmodel img_path mask_path batch_size epochs
      steps_per_epoch val_split optimizer monitor model_file seed show_ t h
  refine ⟨by simp [hc1, image_generator_train_cfg],
    by simp [hc2, mask_generator_train_cfg],
    by simp [hc3, image_generator_val_cfg],
    by simp [hc4, mask_generator_val_cfg], fun h2 => ?_⟩
  have h3 := h.symm.trans h2
  injection h3 with h4
  exact h4.symm

/-- Witness for claim C9 at a concrete completed run. -/
theorem train_unet_seed_deterministic_witness :
    natTrace.image_generator_train.seed = 1 ∧
    natTrace.mask_generator_train.seed = 1 ∧
    natTrace.image_generator_val.seed = 1 ∧
    natTrace.mask_generator_val.seed = 1 ∧
    natTrace = natTrace :=
  have H := train_unet_seed_deterministic natFW natSM
    "images" "masks" 16 25 3125 (1 / 5) 0 "val_jaccard_index" "unet.h5" 1
    false natTrace natTrace rfl
  ⟨H.1, H.2.1, H.2.2.1, H.2.2.2.1, H.2.2.2.2 rfl⟩

/-- Claim C10: a call with show true never returns normally: no trace is
ever produced, and whenever the four generator constructions succeed the
debugging loop over the endless training zip makes the call diverge
before model building, compilation or training. -/
theorem train_unet_show_true_never_returns
    {Batch Model Err History Shape Opt : Type}
    (fw : Framework Batch Model Err History Shape Opt)
    (segmodel : SegModel Shape Err Model)
    (img_path mask_path : String) (batch_size epochs steps_per_epoch : ℕ)
    (val_split : ℚ) (optimizer : Opt) (monitor model_file : String)
    (seed : ℕ) :
    (∀ t, train_unet fw segmodel img_path mask_path batch_size epochs
      steps_per_epoch val_split optimizer monitor model_file seed true ≠
      Outcome.ok t) ∧
    (∀ g1 g2 g3 g4,
      fw.flow (image_generator_train_cfg img_path batch_size seed val_split) =
        Except.ok g1 →
      fw.flow (mask_generator_train_cfg mask_path batch_size seed val_split) =
        Except.ok g2 →
      fw.flow (image_generator_val_cfg img_path batch_size seed val_split) =
        Except.ok g3 →
      fw.flow (mask_generator_val_cfg mask_path batch_size seed val_split) =
        Except.ok g4 →
      train_unet fw segmodel img_path mask_path batch_size epochs
        steps_per_epoch val_split optimizer monitor model_file seed true =
        Outcome.diverge) := by
  constructor
  · intro t h
    have hs := (train_unet_ok_inv fw segmodel img_path mask_path batch_size
      epochs steps_per_epoch val_split optimizer monitor model_file seed
      true t h).1
    exact Bool.noConfusion hs
  · intro g1 g2 g3 g4 h1 h2 h3 h4
    unfold train_unet
    simp [h1, h2, h3, h4, endlessLoop]

/-- Witness for claim C10: a concrete call with show true diverges and
does not return the trace its show false twin returns. -/
theorem train_unet_show_true_never_returns_witness :
    train_unet natFW natSM "images" "masks" 16 25 3125 (1 / 5) 0
      "val_jaccard_index" "unet.h5" 1 true ≠ Outcome.ok natTrace ∧
    train_unet natFW natSM "images" "masks" 16 25 3125 (1 / 5) 0
      "val_jaccard_index" "unet.h5" 1 true = Outcome.diverge :=
  ⟨(train_unet_show_true_never_returns natFW natSM "images" "masks" 16 25
      3125 (1 / 5) 0 "val_jaccard_index" "unet.h5" 1).1 natTrace,
   (train_unet_show_true_never_returns natFW natSM "images" "masks" 16 25
      3125 (1 / 5) 0 "val_jaccard_index" "unet.h5" 1).2 _ _ _ _ rfl rfl rfl rfl⟩

end Segmed
